import Mathlib

/-!
# Verification of the multimodal e-commerce retrieval core

Shallow embedding of the two core utilities of the repository:

* `retry_request` (src/scraper.py, lines 33-50): a decorator that retries a
  network operation on failure with exponential backoff.
* `build_query_vector` (src/main.py, lines 40-60): deterministic reshaping
  (truncate, or tile-then-truncate) of a text embedding to the stored
  collection dimension, followed by L2 normalization.

Modelling conventions:
* Python float arithmetic is modelled exactly: backoff delays and embedding
  components are rationals (`ℚ`); the L2 norm, which needs a square root,
  is taken in `ℝ` via `Real.sqrt`.
* A Python exception is a value of `PyError`; a call that may raise returns
  `Except PyError α`.
* A wrapped network operation is a function `op : ℕ → Except PyError α` from
  the zero-based attempt index to that attempt's outcome, which models a
  stateful external world (each invocation of `func` may behave differently).
-/

namespace RetrievalCore

/-- The Python exceptions relevant to the retry wrapper in src/scraper.py.
`connectionError` and `timeout` are the transport-level
`requests.exceptions.ConnectionError` / `requests.exceptions.Timeout`;
`httpError status` is the `requests.exceptions.HTTPError` raised by
`response.raise_for_status()` for a 4xx/5xx response with that status code;
`jsonDecodeError` is `requests.exceptions.JSONDecodeError` raised by
`response.json()` on malformed bodies; `otherException` stands for any
exception that does not derive from `requests.exceptions.RequestException`. -/
inductive PyError where
  | connectionError
  | timeout
  | httpError (status : Nat)
  | jsonDecodeError
  | otherException
deriving DecidableEq, Repr

/-- Which modelled exceptions are instances of
`requests.exceptions.RequestException`, the class named in the `except`
clause of the wrapper (src/scraper.py line 41).  In the `requests` library,
`ConnectionError`, `Timeout` and `HTTPError` all derive from
`RequestException`, and so does `JSONDecodeError` (via `InvalidJSONError`). -/
def isRequestException : PyError → Bool
  | .connectionError => true
  | .timeout => true
  | .httpError _ => true
  | .jsonDecodeError => true
  | .otherException => false

/-- Modelled from the spec (section 4.1, "Retryable classification"), for
comparison with the code: retryable means any transport-level error
(connection failure, timeout) or an HTTP error status in the 5xx range or
429; all other errors (4xx other than 429, decode errors) are not retryable. -/
def specRetryable : PyError → Bool
  | .connectionError => true
  | .timeout => true
  | .httpError status => (500 ≤ status && status ≤ 599) || status == 429
  | .jsonDecodeError => false
  | .otherException => false

/-- The backoff delay computed at src/scraper.py line 44:
`sleep_time = initial_backoff * (2 ** attempt) + (0.1 * attempt)`. -/
def backoff (initial_backoff : ℚ) (attempt : ℕ) : ℚ :=
  initial_backoff * 2 ^ attempt + (1 / 10) * (attempt : ℚ)

/-- What a call of the wrapped function produces: the value returned by a
successful attempt, a raised (propagated) exception, or Python's implicit
`None` when the `for` loop finishes without returning (possible only when
`max_retries == 0`, so the body never runs). -/
inductive Outcome (α : Type) where
  | success (a : α)
  | raised (e : PyError)
  | noneReturned
deriving DecidableEq, Repr

/-- Observable behaviour of one call of the wrapper: its outcome, the number
of times the wrapped operation `func` was invoked, and the delays passed to
`time.sleep`, in order. -/
structure RunTrace (α : Type) where
  outcome : Outcome α
  attempts : ℕ
  sleeps : List ℚ
deriving DecidableEq, Repr

/-- The `for attempt in range(max_retries)` loop of the wrapper
(src/scraper.py lines 38-48), as structural recursion on the number of loop
iterations still available: `remaining = max_retries - attempt`, so the
Python guard `attempt < max_retries - 1` (take the retry branch) is
`remaining > 1`, i.e. the inner `r = 0` test here is
`attempt == max_retries - 1` (last attempt: re-raise).
Each iteration calls `func`; a success returns its value; an exception that
is a `RequestException` is caught and either slept on and retried or, on the
final attempt, re-raised; any other exception propagates uncaught. -/
def retryLoop (initial_backoff : ℚ) (op : ℕ → Except PyError α) :
    (remaining attempt : ℕ) → RunTrace α
  | 0, _ => ⟨.noneReturned, 0, []⟩
  | r + 1, attempt =>
    match op attempt with
    | .ok a => ⟨.success a, 1, []⟩
    | .error e =>
      if isRequestException e then
        if r = 0 then
          ⟨.raised e, 1, []⟩
        else
          let rest := retryLoop initial_backoff op r (attempt + 1)
          ⟨rest.outcome, rest.attempts + 1,
            backoff initial_backoff attempt :: rest.sleeps⟩
      else
        ⟨.raised e, 1, []⟩

/-- `retry_request(max_retries, initial_backoff)` applied to an operation:
one call of the produced `wrapper` (src/scraper.py lines 33-50). -/
def retry_request (max_retries : ℕ) (initial_backoff : ℚ)
    (op : ℕ → Except PyError α) : RunTrace α :=
  retryLoop initial_backoff op max_retries 0

example :
    retry_request 3 2 (fun _ => .error (.httpError 404) : ℕ → Except PyError ℕ) =
      ⟨.raised (.httpError 404), 3, [2, 41 / 10]⟩ := by
  simp [retry_request, retryLoop, backoff, isRequestException]; norm_num

example :
    retry_request 4 2 (fun _ => .error .timeout : ℕ → Except PyError ℕ) =
      ⟨.raised .timeout, 4, [2, 41 / 10, 41 / 5]⟩ := by
  simp [retry_request, retryLoop, backoff, isRequestException]; norm_num

example :
    retry_request 3 2 (fun _ => .error .otherException : ℕ → Except PyError ℕ) =
      ⟨.raised .otherException, 1, []⟩ := by
  simp [retry_request, retryLoop, isRequestException]

example :
    retry_request 0 2 (fun _ => .ok 7 : ℕ → Except PyError ℕ) =
      ⟨.noneReturned, 0, []⟩ := rfl

/-! ## Query Vector Builder (src/main.py, `build_query_vector`) -/

/-- The error raised by `build_query_vector`:
`RuntimeError("Embedding model returned an empty vector.")` at
src/main.py line 49 — the spec's `EmptyEmbeddingError`. -/
inductive BuildError where
  | emptyEmbedding
deriving DecidableEq, Repr

/-- Sum of squared components (so `np.linalg.norm v = Real.sqrt (sumSq v)`). -/
def sumSq (v : List ℚ) : ℚ := (v.map fun x => x * x).sum

/-- The reshaping step of `build_query_vector` (src/main.py lines 51-55):
`text_vec[:collection_dim]` when `collection_dim <= text_dim`, otherwise
`np.tile(text_vec, repeats)[:collection_dim]` with
`repeats = int(np.ceil(collection_dim / text_dim))`.
`np.tile` with a scalar count concatenates that many copies of the vector. -/
def tileTruncate (text_vec : List ℚ) (collection_dim : ℕ) : List ℚ :=
  let text_dim := text_vec.length
  if collection_dim ≤ text_dim then
    text_vec.take collection_dim
  else
    let repeats := (⌈(collection_dim : ℚ) / (text_dim : ℚ)⌉).toNat
    (List.flatten (List.replicate repeats text_vec)).take collection_dim

/-- Sum of squared components of a real vector. -/
def sumSqR (v : List ℝ) : ℝ := (v.map fun x => x * x).sum

/-- `np.linalg.norm v`: the Euclidean norm of a real vector. -/
noncomputable def normR (v : List ℝ) : ℝ := Real.sqrt (sumSqR v)

/-- `build_query_vector(model, collection_dim, query_text)` from src/main.py
lines 40-60, with `model.embed(query_text)` abstracted as the already
computed source embedding `text_vec` (its float32 components as exact
rationals); `collection_dim` is a `ℕ` since it is obtained as the length of
a stored embedding (`determine_embedding_dim`).  The source's
`if norm: fused = fused / norm` divides when the norm is nonzero and leaves
`fused` unchanged when it is zero; here the two branches are written in the
opposite order (`if norm = 0 then unchanged else divide`). -/
noncomputable def build_query_vector (text_vec : List ℚ) (collection_dim : ℕ) :
    Except BuildError (List ℝ) :=
  let text_dim := text_vec.length
  if text_dim = 0 then
    .error .emptyEmbedding
  else
    let fused := tileTruncate text_vec collection_dim
    let norm : ℝ := Real.sqrt ((sumSq fused : ℝ))
    if norm = 0 then
      .ok (fused.map fun x : ℚ => (x : ℝ))
    else
      .ok (fused.map fun x : ℚ => (x : ℝ) / norm)

example : tileTruncate [1, 2, 3] 7 = [1, 2, 3, 1, 2, 3, 1] := by
  have h : ⌈(7 : ℚ) / 3⌉ = 3 := by rw [Int.ceil_eq_iff]; norm_num
  simp [tileTruncate, h]

example : tileTruncate [1, 2, 3, 4, 5] 2 = [1, 2] := by
  norm_num [tileTruncate]

/-! ## Helper lemmas about the retry wrapper -/

/-- Every spec-retryable error is an instance of `RequestException`, hence
caught by the wrapper's `except` clause. -/
lemma specRetryable_isRequestException (e : PyError)
    (h : specRetryable e = true) : isRequestException e = true := by
  cases e <;> simp_all [specRetryable, isRequestException]

section StepLemmas

variable {initial_backoff : ℚ} {op : ℕ → Except PyError α}

/-- Loop step: the attempt succeeds and its value is returned. -/
lemma retryLoop_succ_ok {r a : ℕ} {v : α} (hop : op a = .ok v) :
    retryLoop initial_backoff op (r + 1) a = ⟨.success v, 1, []⟩ := by
  simp [retryLoop, hop]

lemma retryLoop_succ_uncaught {r a : ℕ} {e : PyError} (hop : op a = .error e)
    (hreq : isRequestException e = false) :
    retryLoop initial_backoff op (r + 1) a = ⟨.raised e, 1, []⟩ := by
  simp [retryLoop, hop, hreq]

lemma retryLoop_one_caught {a : ℕ} {e : PyError} (hop : op a = .error e)
    (hreq : isRequestException e = true) :
    retryLoop initial_backoff op 1 a = ⟨.raised e, 1, []⟩ := by
  simp [retryLoop, hop, hreq]

lemma retryLoop_succ_caught {r a : ℕ} {e : PyError} (hop : op a = .error e)
    (hreq : isRequestException e = true) (hr : r ≠ 0) :
    retryLoop initial_backoff op (r + 1) a =
      ⟨(retryLoop initial_backoff op r (a + 1)).outcome,
        (retryLoop initial_backoff op r (a + 1)).attempts + 1,
        backoff initial_backoff a ::
          (retryLoop initial_backoff op r (a + 1)).sleeps⟩ := by
  simp [retryLoop, hop, hreq, hr]

/-- Loop step lemmas above; the two run-shape lemmas below follow by
induction on the number of remaining iterations. -/

lemma retryLoop_allFail (err : ℕ → PyError)
    (hcaught : ∀ i, isRequestException (err i) = true) :
    ∀ (r a : ℕ),
      retryLoop initial_backoff (fun i => (.error (err i) : Except PyError α))
          (r + 1) a =
        ⟨.raised (err (a + r)), r + 1,
          (List.range r).map fun j => backoff initial_backoff (a + j)⟩ := by
  intro r
  induction r with
  | zero =>
    intro a
    rw [retryLoop_one_caught rfl (hcaught a)]
    simp
  | succ r ih =>
    intro a
    rw [retryLoop_succ_caught rfl (hcaught a) r.succ_ne_zero, ih (a + 1)]
    have h1 : a + 1 + r = a + (r + 1) := by omega
    rw [h1, List.range_succ_eq_map, List.map_cons, List.map_map, Nat.add_zero]
    refine congrArg (RunTrace.mk _ _) (congrArg (List.cons _) ?_)
    apply List.map_congr_left
    intro j _
    simp only [Function.comp_apply]
    congr 1
    omega

lemma retryLoop_sleeps_shape (op : ℕ → Except PyError α) :
    ∀ (r a : ℕ), ∃ k,
      (retryLoop initial_backoff op r a).sleeps =
        (List.range k).map fun j => backoff initial_backoff (a + j) := by
  intro r
  induction r with
  | zero => intro a; exact ⟨0, rfl⟩
  | succ r ih =>
    intro a
    rcases hop : op a with e | v
    · rcases hreq : isRequestException e with _ | _
      · exact ⟨0, by rw [retryLoop_succ_uncaught hop hreq]; rfl⟩
      · rcases Nat.eq_zero_or_pos r with hr | hr
        · subst hr
          exact ⟨0, by rw [retryLoop_one_caught hop hreq]; rfl⟩
        · obtain ⟨k, hk⟩ := ih (a + 1)
          refine ⟨k + 1, ?_⟩
          rw [retryLoop_succ_caught hop hreq hr.ne', hk,
            List.range_succ_eq_map, List.map_cons, List.map_map, Nat.add_zero]
          refine congrArg (List.cons _) ?_
          apply List.map_congr_left
          intro j _
          simp only [Function.comp_apply]
          congr 1
          omega
    · exact ⟨0, by rw [retryLoop_succ_ok hop]; rfl⟩

end StepLemmas

/-! ## Claims about the Resilient Fetcher -/

/-- C1: the spec says an HTTP 4xx status other than 429 is not retryable and
must propagate after exactly 1 attempt with no backoff sleep.  The code
instead catches every `requests.exceptions.RequestException` — which
includes the `HTTPError` raised by `raise_for_status()` for a 404 — so with
`max_retries = 3` a permanently-404ing operation is attempted 3 times with
two backoff sleeps before the error propagates, contradicting the code's
own comment ("Retry on connection errors, timeouts, or specific HTTP status
errors (5xx, 429)", src/scraper.py line 42). -/
theorem C1_http404_is_retried_by_code :
    specRetryable (.httpError 404) = false ∧
    retry_request 3 2 (fun _ => .error (.httpError 404) : ℕ → Except PyError ℕ) =
      ⟨.raised (.httpError 404), 3, [2, 41 / 10]⟩ := by
  refine ⟨rfl, ?_⟩
  simp [retry_request, retryLoop, backoff, isRequestException]
  norm_num

/-- C2: for every `RetryPolicy` with `max_attempts = n ≥ 1` and every
operation failing with a (spec-)retryable error on every call, the wrapper
invokes the operation exactly `n` times and then re-raises the exception of
the last attempt unchanged. -/
theorem C2_exhaustion_attempts_and_reraise (n : ℕ) (hn : 1 ≤ n)
    (initial_backoff : ℚ) (err : ℕ → PyError)
    (hretry : ∀ i, specRetryable (err i) = true) :
    (retry_request n initial_backoff
        (fun i => (.error (err i) : Except PyError ℕ))).attempts = n ∧
    (retry_request n initial_backoff
        (fun i => (.error (err i) : Except PyError ℕ))).outcome =
      .raised (err (n - 1)) := by
  obtain ⟨r, rfl⟩ : ∃ r, n = r + 1 := ⟨n - 1, by omega⟩
  rw [retry_request,
    retryLoop_allFail err (fun i => specRetryable_isRequestException _ (hretry i)) r 0]
  exact ⟨rfl, by rw [Nat.zero_add, Nat.add_sub_cancel]⟩

/-- C2 witness: two attempts, then the 503 error of the last attempt. -/
theorem C2_exhaustion_attempts_and_reraise_witness :
    (retry_request 2 2
        (fun _ => (.error (.httpError 503) : Except PyError ℕ))).attempts = 2 ∧
    (retry_request 2 2
        (fun _ => (.error (.httpError 503) : Except PyError ℕ))).outcome =
      .raised (.httpError 503) :=
  C2_exhaustion_attempts_and_reraise 2 (by norm_num) 2 (fun _ => .httpError 503)
    (fun _ => rfl)

/-- C3: the `i`-th backoff sleep of any run (zero-based) is exactly
`initial_backoff * 2 ^ i + 0.1 * i`; in particular a permanently failing
run with `initial_backoff = 2` sleeps 2.0, 4.1 and 8.2 seconds at indices
0, 1 and 2. -/
theorem C3_backoff_delays :
    (∀ (α : Type) (max_retries : ℕ) (initial_backoff : ℚ)
        (op : ℕ → Except PyError α) (i : ℕ)
        (h : i < (retry_request max_retries initial_backoff op).sleeps.length),
        (retry_request max_retries initial_backoff op).sleeps.get ⟨i, h⟩ =
          initial_backoff * 2 ^ i + (1 / 10) * (i : ℚ)) ∧
    (retry_request 4 2
        (fun _ => .error .timeout : ℕ → Except PyError ℕ)).sleeps =
      [2, 41 / 10, 41 / 5] := by
  constructor
  · intro α max_retries initial_backoff op i h
    simp only [retry_request] at h ⊢
    obtain ⟨k, hk⟩ := @retryLoop_sleeps_shape α initial_backoff op max_retries 0
    simp only [hk, List.get_eq_getElem, List.getElem_map, List.getElem_range,
      Nat.zero_add] at h ⊢
    rfl
  · simp [retry_request, retryLoop, backoff, isRequestException]
    norm_num

/-- C3 witness: the first sleep of a concrete failing run is
`2 * 2 ^ 0 + 0.1 * 0 = 2`. -/
theorem C3_backoff_delays_witness :
    ∃ h : 0 < (retry_request 3 2
        (fun _ => .error .timeout : ℕ → Except PyError ℕ)).sleeps.length,
      (retry_request 3 2
          (fun _ => .error .timeout : ℕ → Except PyError ℕ)).sleeps.get ⟨0, h⟩ =
        2 * 2 ^ 0 + (1 / 10) * ((0 : ℕ) : ℚ) := by
  have hlen : (retry_request 3 2
      (fun _ => .error .timeout : ℕ → Except PyError ℕ)).sleeps.length = 2 := by
    simp [retry_request, retryLoop, isRequestException]
  exact ⟨by rw [hlen]; norm_num, C3_backoff_delays.1 ℕ 3 2 _ 0 _⟩

/-- C10: constructed with `max_retries = 0`, the wrapper's `for` loop body
never runs, so the wrapped call returns Python's implicit `None`: the
operation is never invoked, nothing is raised, nothing is slept. -/
theorem C10_zero_max_retries_returns_none (α : Type) (initial_backoff : ℚ)
    (op : ℕ → Except PyError α) :
    retry_request 0 initial_backoff op = ⟨.noneReturned, 0, []⟩ := rfl

/-! ## Helper lemmas about the Query Vector Builder -/

lemma sumSq_nonneg (v : List ℚ) : 0 ≤ sumSq v := by
  induction v with
  | nil => simp [sumSq]
  | cons x xs ih =>
    simp only [sumSq, List.map_cons, List.sum_cons] at ih ⊢
    have hx : 0 ≤ x * x := mul_self_nonneg x
    linarith

/-- Casting a rational vector to `ℝ` commutes with the sum of squares. -/
lemma sumSqR_map_cast (v : List ℚ) :
    sumSqR (v.map fun x : ℚ => (x : ℝ)) = ((sumSq v : ℚ) : ℝ) := by
  induction v with
  | nil => simp [sumSq, sumSqR]
  | cons x xs ih =>
    simp only [sumSq, sumSqR, List.map_cons, List.sum_cons] at ih ⊢
    rw [ih]
    push_cast
    ring

/-- The Euclidean norm of the cast of a rational vector is the square root
of its rational sum of squares. -/
lemma normR_map_cast (v : List ℚ) :
    normR (v.map fun x : ℚ => (x : ℝ)) = Real.sqrt ((sumSq v : ℝ)) := by
  rw [normR, sumSqR_map_cast]

/-- `np.linalg.norm` of a vector is zero exactly when its sum of squares is
zero (the vector is the zero vector). -/
lemma sqrt_sumSq_eq_zero_iff (v : List ℚ) :
    Real.sqrt ((sumSq v : ℝ)) = 0 ↔ sumSq v = 0 := by
  rw [Real.sqrt_eq_zero (by exact_mod_cast sumSq_nonneg v)]
  exact_mod_cast Iff.rfl

/-- When the reshaped vector is the zero vector, the `if norm:` test fails
and `build_query_vector` returns the reshaped vector unchanged. -/
lemma build_eq_of_sumSq_zero {v : List ℚ} {c : ℕ} (hv : v ≠ [])
    (h0 : sumSq (tileTruncate v c) = 0) :
    build_query_vector v c = .ok ((tileTruncate v c).map fun x : ℚ => (x : ℝ)) := by
  have hlen : ¬v.length = 0 := fun h => hv (List.length_eq_zero.mp h)
  simp only [build_query_vector, if_neg hlen,
    if_pos ((sqrt_sumSq_eq_zero_iff (tileTruncate v c)).mpr h0)]

/-- When the reshaped vector is nonzero, `build_query_vector` divides every
component by the Euclidean norm. -/
lemma build_eq_of_sumSq_ne {v : List ℚ} {c : ℕ} (hv : v ≠ [])
    (h0 : sumSq (tileTruncate v c) ≠ 0) :
    build_query_vector v c =
      .ok ((tileTruncate v c).map fun x : ℚ =>
        (x : ℝ) / Real.sqrt ((sumSq (tileTruncate v c) : ℝ))) := by
  have hlen : ¬v.length = 0 := fun h => hv (List.length_eq_zero.mp h)
  simp only [build_query_vector, if_neg hlen,
    if_neg (fun h => h0 ((sqrt_sumSq_eq_zero_iff (tileTruncate v c)).mp h))]

/-- The reshaped vector always has length `collection_dim` (truncation when
it fits; enough tiled copies otherwise, since `repeats * text_dim` is at
least `collection_dim` by the choice of the ceiling). -/
lemma tileTruncate_length (v : List ℚ) (c : ℕ) (hv : v ≠ []) :
    (tileTruncate v c).length = c := by
  have ht : 0 < v.length := List.length_pos.mpr hv
  simp only [tileTruncate]
  by_cases hc : c ≤ v.length
  · rw [if_pos hc, List.length_take]
    omega
  · rw [if_neg hc, List.length_take]
    have hflat : (List.flatten
        (List.replicate ((⌈(c : ℚ) / (v.length : ℚ)⌉).toNat) v)).length =
        (⌈(c : ℚ) / (v.length : ℚ)⌉).toNat * v.length := by
      simp
    rw [hflat]
    have htQ : (0 : ℚ) < (v.length : ℚ) := by exact_mod_cast ht
    have h1 : ((c : ℚ) / (v.length : ℚ)) ≤ (⌈(c : ℚ) / (v.length : ℚ)⌉ : ℚ) :=
      Int.le_ceil _
    have h2 : (0 : ℤ) ≤ ⌈(c : ℚ) / (v.length : ℚ)⌉ :=
      Int.ceil_nonneg (by positivity)
    have h3 : (((⌈(c : ℚ) / (v.length : ℚ)⌉).toNat : ℕ) : ℚ) =
        ((⌈(c : ℚ) / (v.length : ℚ)⌉ : ℤ) : ℚ) := by
      rw [← Int.cast_natCast, Int.toNat_of_nonneg h2]
    have h4 : (c : ℚ) ≤ (((⌈(c : ℚ) / (v.length : ℚ)⌉).toNat : ℕ) : ℚ) *
        (v.length : ℚ) := by
      rw [h3]
      exact (div_le_iff₀ htQ).mp h1
    have h5 : c ≤ (⌈(c : ℚ) / (v.length : ℚ)⌉).toNat * v.length := by
      exact_mod_cast h4
    omega

/-- Dividing every component by a constant divides the sum of squares by its
square (both sides are zero when the constant is zero). -/
lemma sumSqR_map_div (w : List ℝ) (n : ℝ) :
    sumSqR (w.map fun x => x / n) = sumSqR w / (n * n) := by
  induction w with
  | nil => simp [sumSqR]
  | cons x xs ih =>
    simp only [sumSqR, List.map_cons, List.sum_cons] at ih ⊢
    rw [ih, div_mul_div_comm, div_add_div_same]

/-! ## Claims about the Query Vector Builder -/

/-- C4: for every nonempty source embedding and target dimension at least 1,
the query vector has length exactly `collection_dim`. -/
theorem C4_query_vector_length (v : List ℚ) (c : ℕ) (hv : 1 ≤ v.length)
    (_hc : 1 ≤ c) :
    ∃ w, build_query_vector v c = .ok w ∧ w.length = c := by
  have hv' : v ≠ [] := by
    intro h
    rw [h] at hv
    simp at hv
  by_cases h0 : sumSq (tileTruncate v c) = 0
  · exact ⟨_, build_eq_of_sumSq_zero hv' h0,
      by rw [List.length_map, tileTruncate_length v c hv']⟩
  · exact ⟨_, build_eq_of_sumSq_ne hv' h0,
      by rw [List.length_map, tileTruncate_length v c hv']⟩

/-- C4 witness: tiling `[1, 2, 3]` up to dimension 7 yields a vector of
length 7. -/
theorem C4_query_vector_length_witness :
    ∃ w, build_query_vector [1, 2, 3] 7 = .ok w ∧ w.length = 7 :=
  C4_query_vector_length [1, 2, 3] 7 (by norm_num) (by norm_num)

/-- C5 counterexample: the claim "the query vector has norm 1 whenever the
SOURCE embedding is nonzero" fails: the nonzero source `[0, 1]` truncated to
dimension 1 gives the zero vector `[0]`, normalization is skipped, and the
returned query vector has norm 0, not 1. -/
theorem C5_counterexample_nonzero_source_zero_norm :
    sumSq [0, 1] ≠ 0 ∧
    build_query_vector [0, 1] 1 = .ok [(0 : ℝ)] ∧
    normR [(0 : ℝ)] = 0 := by
  refine ⟨by norm_num [sumSq], ?_, by simp [normR, sumSqR]⟩
  have ht : tileTruncate [0, 1] 1 = [0] := by norm_num [tileTruncate]
  have h0 : sumSq (tileTruncate [0, 1] 1) = 0 := by rw [ht]; norm_num [sumSq]
  rw [build_eq_of_sumSq_zero (by simp) h0, ht]
  simp

/-- C5 amended: the query vector has Euclidean norm exactly 1 whenever the
truncated-or-tiled intermediate vector (rather than the source embedding)
is nonzero. -/
theorem C5_amended_unit_norm (v : List ℚ) (c : ℕ) (hv : v ≠ [])
    (hnz : normR ((tileTruncate v c).map fun x : ℚ => (x : ℝ)) ≠ 0) :
    ∃ w, build_query_vector v c = .ok w ∧ normR w = 1 := by
  rw [normR_map_cast, ne_eq, sqrt_sumSq_eq_zero_iff] at hnz
  refine ⟨_, build_eq_of_sumSq_ne hv hnz, ?_⟩
  have hcomp : ((tileTruncate v c).map fun x : ℚ =>
      (x : ℝ) / Real.sqrt ((sumSq (tileTruncate v c) : ℝ))) =
      ((tileTruncate v c).map fun x : ℚ => (x : ℝ)).map
        fun x => x / Real.sqrt ((sumSq (tileTruncate v c) : ℝ)) := by
    rw [List.map_map]
    rfl
  have hsQ : (0 : ℚ) ≤ sumSq (tileTruncate v c) := sumSq_nonneg _
  have hsR : (0 : ℝ) ≤ ((sumSq (tileTruncate v c) : ℚ) : ℝ) := by
    exact_mod_cast hsQ
  have hsne : ((sumSq (tileTruncate v c) : ℚ) : ℝ) ≠ 0 := by
    exact_mod_cast hnz
  rw [normR, hcomp, sumSqR_map_div, sumSqR_map_cast,
    Real.mul_self_sqrt hsR, div_self hsne, Real.sqrt_one]

/-- C5 amended witness: source `[3, 4]` at dimension 2 (intermediate
`[3, 4]`, nonzero) yields a unit-norm query vector. -/
theorem C5_amended_unit_norm_witness :
    ∃ w, build_query_vector [3, 4] 2 = .ok w ∧ normR w = 1 :=
  C5_amended_unit_norm [3, 4] 2 (by simp) (by
    rw [normR_map_cast, ne_eq, sqrt_sumSq_eq_zero_iff]
    norm_num [tileTruncate, sumSq])

/-- C6 counterexample: with `collection_dim = 0` the builder does not fail
at all (the source defines no `InvalidDimensionError`); it truncates to the
empty vector and returns it. -/
theorem C6_counterexample_returns_empty_vector :
    build_query_vector [1] 0 = .ok ([] : List ℝ) := by
  have h0 : sumSq (tileTruncate [1] 0) = 0 := by norm_num [tileTruncate, sumSq]
  rw [build_eq_of_sumSq_zero (by simp) h0]
  norm_num [tileTruncate]

/-- C6 amended: for every nonempty source embedding, `collection_dim = 0`
returns the empty query vector (length 0) without raising any error. -/
theorem C6_amended_dim_zero_ok (v : List ℚ) (hv : v ≠ []) :
    build_query_vector v 0 = .ok ([] : List ℝ) := by
  have ht : tileTruncate v 0 = [] := by
    simp [tileTruncate]
  have h0 : sumSq (tileTruncate v 0) = 0 := by rw [ht]; rfl
  rw [build_eq_of_sumSq_zero hv h0, ht]
  rfl

/-- C6 amended witness. -/
theorem C6_amended_dim_zero_ok_witness :
    build_query_vector [2] 0 = .ok ([] : List ℝ) :=
  C6_amended_dim_zero_ok [2] (by simp)

/-- C7: an empty source embedding (`text_dim = 0`) fails with the
empty-embedding error for every target dimension, before any reshaping or
normalization happens. -/
theorem C7_empty_embedding_error (c : ℕ) :
    build_query_vector [] c = .error .emptyEmbedding := rfl

/-- C8: if the truncated-or-tiled intermediate vector has Euclidean norm
zero it is returned unchanged (normalization skipped, no division by zero);
if its norm is nonzero, every component is divided by that norm. -/
theorem C8_normalization_guard (v : List ℚ) (c : ℕ) (hv : v ≠ []) :
    (normR ((tileTruncate v c).map fun x : ℚ => (x : ℝ)) = 0 →
      build_query_vector v c =
        .ok ((tileTruncate v c).map fun x : ℚ => (x : ℝ))) ∧
    (normR ((tileTruncate v c).map fun x : ℚ => (x : ℝ)) ≠ 0 →
      build_query_vector v c =
        .ok ((tileTruncate v c).map fun x : ℚ =>
          (x : ℝ) / normR ((tileTruncate v c).map fun y : ℚ => (y : ℝ)))) := by
  constructor
  · intro h
    rw [normR_map_cast, sqrt_sumSq_eq_zero_iff] at h
    exact build_eq_of_sumSq_zero hv h
  · intro h
    rw [normR_map_cast, ne_eq, sqrt_sumSq_eq_zero_iff] at h
    rw [build_eq_of_sumSq_ne hv h, normR_map_cast]

/-- C8 witness: intermediate `[3, 4]` has nonzero norm, so each component
is divided by it. -/
theorem C8_normalization_guard_witness :
    build_query_vector [3, 4] 2 =
      .ok ((tileTruncate [3, 4] 2).map fun x : ℚ =>
        (x : ℝ) / normR ((tileTruncate [3, 4] 2).map fun y : ℚ => (y : ℝ))) :=
  (C8_normalization_guard [3, 4] 2 (by simp)).2 (by
    rw [normR_map_cast, ne_eq, sqrt_sumSq_eq_zero_iff]
    norm_num [tileTruncate, sumSq])

/-- C9: the spec's worked examples.  Tiling: source `[1, 2, 3]` with target
dimension 7 gives pre-normalization `[1, 2, 3, 1, 2, 3, 1]` (sum of squares
29), then each component is divided by `√29`.  Truncation: source
`[1, 2, 3, 4, 5]` with target dimension 2 gives pre-normalization `[1, 2]`
(sum of squares 5), then each component is divided by `√5`. -/
theorem C9_worked_examples :
    tileTruncate [1, 2, 3] 7 = [1, 2, 3, 1, 2, 3, 1] ∧
    tileTruncate [1, 2, 3, 4, 5] 2 = [1, 2] ∧
    build_query_vector [1, 2, 3] 7 =
      .ok [1 / Real.sqrt 29, 2 / Real.sqrt 29, 3 / Real.sqrt 29,
        1 / Real.sqrt 29, 2 / Real.sqrt 29, 3 / Real.sqrt 29,
        1 / Real.sqrt 29] ∧
    build_query_vector [1, 2, 3, 4, 5] 2 =
      .ok [1 / Real.sqrt 5, 2 / Real.sqrt 5] := by
  have ht1 : tileTruncate [1, 2, 3] 7 = [1, 2, 3, 1, 2, 3, 1] := by
    have h : ⌈(7 : ℚ) / 3⌉ = 3 := by rw [Int.ceil_eq_iff]; norm_num
    simp [tileTruncate, h]
  have ht2 : tileTruncate [1, 2, 3, 4, 5] 2 = [1, 2] := by
    norm_num [tileTruncate]
  have hs1 : sumSq (tileTruncate [1, 2, 3] 7) = 29 := by
    rw [ht1]; norm_num [sumSq]
  have hs2 : sumSq (tileTruncate [1, 2, 3, 4, 5] 2) = 5 := by
    rw [ht2]; norm_num [sumSq]
  refine ⟨ht1, ht2, ?_, ?_⟩
  · rw [build_eq_of_sumSq_ne (by simp) (by rw [hs1]; norm_num), hs1, ht1]
    norm_num
  · rw [build_eq_of_sumSq_ne (by simp) (by rw [hs2]; norm_num), hs2, ht2]
    norm_num

end RetrievalCore
